import Mathlib

/-!
Verification of the LedBlinker topology lifecycle code
(`LedBlinker/Top/LedBlinkerTopology.cpp`).

The C++ file is a straight-line orchestrator: `setupTopology` runs the
autocoded wiring calls, then `configureTopology` (per-component
configuration, including the two resource acquisitions), then
`startTasks`, then conditionally the socket task; `teardownTopology`
stops tasks and releases the two resources; `startSimulatedCycle` /
`stopSimulatedCycle` implement a lock-protected cooperative cancel loop.

We embed the straight-line functions as the list of externally visible
calls (events) they perform, in program order.  The simulated-cycle loop
is embedded as a recursion over the sequence of values the loop reads
from the shared flag (each lock-protected read is one atomic
observation), with explicit fuel since the C++ loop does not terminate
unless a false read occurs.
-/

/-! ## Constants (enum TopologyConstants and file-scope data) -/

def CMD_SEQ_BUFFER_SIZE : Nat := 5 * 1024

def FILE_DOWNLINK_TIMEOUT : Nat := 1000

def FILE_DOWNLINK_COOLDOWN : Nat := 1000

def FILE_DOWNLINK_CYCLE_TIME : Nat := 1000

def FILE_DOWNLINK_FILE_QUEUE_DEPTH : Nat := 10

def HEALTH_WATCHDOG_CODE : Nat := 0x123

def COMM_PRIORITY : Nat := 100

def UPLINK_BUFFER_MANAGER_STORE_SIZE : Nat := 3000

def UPLINK_BUFFER_MANAGER_QUEUE_SIZE : Nat := 30

def UPLINK_BUFFER_MANAGER_ID : Nat := 200

/-- `NATIVE_INT_TYPE rateGroupDivisors[Svc::RateGroupDriver::DIVIDER_SIZE] = {1, 2, 4};` -/
def rateGroupDivisors : List Int := [1, 2, 4]

/-- Number of entries of the file-scope `pingEntries` array. -/
def PING_ENTRY_COUNT : Nat := 12

/-! ## Event alphabet

One constructor per externally visible call made by `configureTopology`,
`setupTopology` and `teardownTopology`, carrying the arguments that the
claims talk about. -/

/-- The two allocators visible in the file.  Only `mallocator`
(`Fw::MallocAllocator mallocator;`) is ever used. -/
inductive Allocator
  | mallocator
  deriving DecidableEq

/-- The two resources acquired during `configureTopology`: the command
sequencer's buffer (`cmdSeq.allocateBuffer`) and the uplink buffer
manager's pool (`fileUplinkBufferManager.setup`). -/
inductive Handle
  | cmdSeqBuffer
  | uplinkPool
  deriving DecidableEq

inductive Ev
  | initComponents
  | setBaseIds
  | connectComponents
  | regCommands
  | allocateBuffer (h : Handle) (a : Allocator) (size : Nat)
  | configureRateGroupDriver (divisors : List Int)
  | configureRateGroup (n : Nat)
  | configureFileDownlink (timeout cooldown cycleTime queueDepth : Nat)
  | configurePrmDb (file : String)
  | readParamFile
  | setPingEntries (numEntries watchdogCode : Nat)
  | allocatePool (h : Handle) (a : Allocator) (memId storeSize queueSize : Nat)
  | setupDownlinkFraming
  | setupUplinkDeframing
  | gpioOpen (pin : Nat) (success : Bool)
  | logError (msg : String)
  | startTasks
  | commConfigure (hostname : String) (port : Nat)
  | startSocketTask
  | stopTasks
  | freeThreads
  | stopSocketTask
  | joinSocketTask
  | release (h : Handle) (a : Allocator)
  deriving DecidableEq

/-- `TopologyState` as used by this file: `hostname` is a C string
pointer (`none` models a null pointer, `some s` a pointer to the string
`s`, which may be empty) and `port` a numeric port. -/
structure TopologyState where
  hostname : Option String
  port : Nat

/-! ## The lifecycle functions as event traces -/

/-- `configureTopology()` (lines 80-120).  The GPIO open result depends
on the hardware environment, so it is a parameter; on failure the code
only prints one error line and falls through. -/
def configureTopology (gpioSuccess : Bool) : List Ev :=
  [Ev.allocateBuffer Handle.cmdSeqBuffer Allocator.mallocator CMD_SEQ_BUFFER_SIZE,
   Ev.configureRateGroupDriver rateGroupDivisors,
   Ev.configureRateGroup 1,
   Ev.configureRateGroup 2,
   Ev.configureRateGroup 3,
   Ev.configureFileDownlink FILE_DOWNLINK_TIMEOUT FILE_DOWNLINK_COOLDOWN
     FILE_DOWNLINK_CYCLE_TIME FILE_DOWNLINK_FILE_QUEUE_DEPTH,
   Ev.configurePrmDb "PrmDb.dat",
   Ev.readParamFile,
   Ev.setPingEntries PING_ENTRY_COUNT HEALTH_WATCHDOG_CODE,
   Ev.allocatePool Handle.uplinkPool Allocator.mallocator UPLINK_BUFFER_MANAGER_ID
     UPLINK_BUFFER_MANAGER_STORE_SIZE UPLINK_BUFFER_MANAGER_QUEUE_SIZE,
   Ev.setupDownlinkFraming,
   Ev.setupUplinkDeframing,
   Ev.gpioOpen 13 gpioSuccess]
    ++ (if gpioSuccess then [] else [Ev.logError "[ERROR] Failed to open GPIO pin"])

/-- The conditional tail of `setupTopology` (lines 140-145):
`if (state.hostname != nullptr && state.port != 0) { comm.configure(...);
comm.startSocketTask(...); }`. -/
def networkStartEvents (state : TopologyState) : List Ev :=
  match state.hostname with
  | some host => if state.port ≠ 0 then
      [Ev.commConfigure host state.port, Ev.startSocketTask]
    else []
  | none => []

/-- `setupTopology(state)` (lines 124-146). -/
def setupTopology (state : TopologyState) (gpioSuccess : Bool) : List Ev :=
  [Ev.initComponents, Ev.setBaseIds, Ev.connectComponents, Ev.regCommands]
    ++ configureTopology gpioSuccess
    ++ [Ev.startTasks]
    ++ networkStartEvents state

/-- `teardownTopology(state)` (lines 174-186).  `cmdSeq.deallocateBuffer`
is passed `mallocator` explicitly; `fileUplinkBufferManager.cleanup()`
returns the pool memory through the allocator it stored at `setup`
(`mallocator`). -/
def teardownTopology (_state : TopologyState) : List Ev :=
  [Ev.stopTasks,
   Ev.freeThreads,
   Ev.stopSocketTask,
   Ev.joinSocketTask,
   Ev.release Handle.cmdSeqBuffer Allocator.mallocator,
   Ev.release Handle.uplinkPool Allocator.mallocator]

/-! ## Trace observations used by the claims -/

/-- `occursBefore a b l` holds when the first occurrence of `a` in `l`
is followed (strictly later) by an occurrence of `b`. -/
def occursBefore (a b : Ev) : List Ev → Bool
  | [] => false
  | x :: xs => if x = a then xs.contains b else occursBefore a b xs

/-- The allocators of the allocation events for handle `h`, in order. -/
def allocEventsFor (h : Handle) : List Ev → List Allocator
  | [] => []
  | Ev.allocateBuffer h' a _ :: rest =>
      if h' = h then a :: allocEventsFor h rest else allocEventsFor h rest
  | Ev.allocatePool h' a _ _ _ :: rest =>
      if h' = h then a :: allocEventsFor h rest else allocEventsFor h rest
  | _ :: rest => allocEventsFor h rest

/-- The allocators of the release events for handle `h`, in order. -/
def releaseEventsFor (h : Handle) : List Ev → List Allocator
  | [] => []
  | Ev.release h' a :: rest =>
      if h' = h then a :: releaseEventsFor h rest else releaseEventsFor h rest
  | _ :: rest => releaseEventsFor h rest

/-- Error-report events: the only error action in the file is the
`printf("[ERROR] ...")` line. -/
def isErrorLog : Ev → Bool
  | Ev.logError _ => true
  | _ => false

/-- Phase of each event in the setup sequence described by the spec:
0 = external construction/wiring, 1 = per-component configuration,
2 = starting active-component tasks, 3 = network task, 4 = teardown. -/
def phaseOf : Ev → Nat
  | Ev.initComponents => 0
  | Ev.setBaseIds => 0
  | Ev.connectComponents => 0
  | Ev.regCommands => 0
  | Ev.startTasks => 2
  | Ev.commConfigure _ _ => 3
  | Ev.startSocketTask => 3
  | Ev.stopTasks => 4
  | Ev.freeThreads => 4
  | Ev.stopSocketTask => 4
  | Ev.joinSocketTask => 4
  | Ev.release _ _ => 4
  | _ => 1

/-- `monotoneBy f l` holds when `f` is nondecreasing along `l`. -/
def monotoneBy (f : Ev → Nat) : List Ev → Bool
  | [] => true
  | [_] => true
  | a :: b :: rest => Nat.ble (f a) (f b) && monotoneBy f (b :: rest)

/-! ## RateClockConfig (spec §4.4) -/

inductive ConfigResult
  | ok
  | configurationError
  deriving DecidableEq

/-- Modelled from the spec: `RateClockConfig::validate()` has no
implementation under `src/` (the source only defines the divisor array
`rateGroupDivisors` and hands it to the external
`rateGroupDriver.configure`); the spec states "every divisor ≥ 1;
sequence non-empty; fails with `ConfigurationError` otherwise". -/
def RateClockConfig.validate (divisors : List Int) : ConfigResult :=
  if divisors ≠ [] ∧ divisors.all (fun d => 1 ≤ d) then ConfigResult.ok
  else ConfigResult.configurationError

/-! ## The simulated cycle (lines 148-172) -/

/-- Events of one run of `startSimulatedCycle`: a lock-protected read of
`cycleFlag` (recorded with the value read), one `blockDrv.callIsr()`
invocation, one `Os::Task::delay(milliseconds)` sleep. -/
inductive CycleEv
  | read (flagValue : Bool)
  | callIsr
  | sleep (milliseconds : Nat)
  deriving DecidableEq

/-- The loop of `startSimulatedCycle` (lines 152-166), embedded over the
sequence `reads` of values the successive lock-protected flag reads
return (read number `i` is `reads i`).  The body is literally the C++
order: read; while the value read is true, call `callIsr`, sleep, read
again.  `fuel` bounds the number of reads, since the loop only
terminates once a read returns false; `none` means the fuel was
exhausted with the loop still running. -/
def cycleTrace (milliseconds : Nat) (reads : Nat → Bool) : Nat → Nat → Option (List CycleEv)
  | 0, _ => none
  | fuel + 1, i =>
    if reads i then
      (cycleTrace milliseconds reads fuel (i + 1)).map
        (fun t => CycleEv.read true :: CycleEv.callIsr :: CycleEv.sleep milliseconds :: t)
    else
      some [CycleEv.read false]

/-- `startSimulatedCycle(milliseconds)` run against flag-read sequence
`reads`, with `fuel` available reads. -/
def startSimulatedCycle (milliseconds : Nat) (reads : Nat → Bool) (fuel : Nat) :
    Option (List CycleEv) :=
  cycleTrace milliseconds reads fuel 0

/-- Number of `callIsr` invocations in a cycle trace. -/
def countTicks : List CycleEv → Nat
  | [] => 0
  | CycleEv.callIsr :: rest => countTicks rest + 1
  | _ :: rest => countTicks rest

/-- Last event of a cycle trace. -/
def lastEv : List CycleEv → Option CycleEv
  | [] => none
  | [e] => some e
  | _ :: rest => lastEv rest

/-- The shared flag stays false once set false: this is how a `stop`
call is visible to the loop (`stopSimulatedCycle` only ever writes
`false`, and nothing writes `true`). -/
def flagMonotone (reads : Nat → Bool) : Prop :=
  ∀ j k, j ≤ k → reads j = false → reads k = false

/-- The state touched by `stopSimulatedCycle`: the single shared flag
`volatile bool cycleFlag` (line 150). -/
structure CycleState where
  cycleFlag : Bool
  deriving DecidableEq

/-- `volatile bool cycleFlag = true;` (line 150). -/
def initialCycleState : CycleState := { cycleFlag := true }

/-- `stopSimulatedCycle()` (lines 168-172): under the lock, set the flag
false. -/
def stopSimulatedCycle (s : CycleState) : CycleState := { s with cycleFlag := false }

/-! ## Theorems -/

/-- Claim C1, counterexample: in `teardownTopology` the uplink buffer
pool is NOT released before the command-sequence buffer is deallocated —
`cmdSeq.deallocateBuffer` (line 184) precedes
`fileUplinkBufferManager.cleanup()` (line 185), the same order as
acquisition, not the reverse order the claim states. -/
theorem teardown_not_reverse_order :
    occursBefore (Ev.release Handle.uplinkPool Allocator.mallocator)
      (Ev.release Handle.cmdSeqBuffer Allocator.mallocator)
      (teardownTopology { hostname := none, port := 0 }) = false := by
  rfl

/-- Claim C1, amended: setup acquires the command-sequence buffer first
and the uplink buffer pool second, and teardown releases them in the
SAME order — the command-sequence buffer is deallocated before the
uplink buffer pool is cleaned up. -/
theorem teardown_release_same_order (st : TopologyState) (g : Bool) :
    occursBefore
        (Ev.allocateBuffer Handle.cmdSeqBuffer Allocator.mallocator CMD_SEQ_BUFFER_SIZE)
        (Ev.allocatePool Handle.uplinkPool Allocator.mallocator UPLINK_BUFFER_MANAGER_ID
          UPLINK_BUFFER_MANAGER_STORE_SIZE UPLINK_BUFFER_MANAGER_QUEUE_SIZE)
        (setupTopology st g) = true ∧
    occursBefore (Ev.release Handle.cmdSeqBuffer Allocator.mallocator)
        (Ev.release Handle.uplinkPool Allocator.mallocator)
        (teardownTopology st) = true := by
  obtain ⟨h, p⟩ := st
  cases h <;> cases g <;> cases p <;> exact ⟨rfl, rfl⟩

/-- Claim C2, counterexample: a state whose host string is empty (a
non-null pointer to `""`) with port 50000 DOES start the socket task —
the code only checks `state.hostname != nullptr`, not non-emptiness. -/
theorem empty_host_starts_socket_task :
    (setupTopology { hostname := some "", port := 50000 } true).contains
      Ev.startSocketTask = true := by
  rfl

/-- Claim C2, amended: setup starts the network receive task if and only
if the state's hostname pointer is non-null (`some`, even if the string
is empty) and its port is non-zero; when started, it is exactly one task
and `comm` is configured with that same host and port. -/
theorem socket_task_condition (st : TopologyState) (g : Bool) :
    (setupTopology st g).count Ev.startSocketTask =
      (if st.hostname.isSome ∧ st.port ≠ 0 then 1 else 0) ∧
    (∀ host, st.hostname = some host → st.port ≠ 0 →
      Ev.commConfigure host st.port ∈ setupTopology st g) := by
  obtain ⟨h, p⟩ := st
  constructor
  · cases h <;> cases g <;> cases p <;> rfl
  · intro host hh hp
    cases h with
    | none => cases hh
    | some h0 =>
      injection hh with hh
      subst hh
      cases p with
      | zero => exact absurd rfl hp
      | succ p =>
        cases g <;>
          simp [setupTopology, configureTopology, networkStartEvents]

/-- Claim C2, witness for the amended theorem at the spec's example
state `{host: "127.0.0.1", port: 50000}`. -/
theorem socket_task_condition_witness :
    Ev.commConfigure "127.0.0.1" 50000 ∈
      setupTopology { hostname := some "127.0.0.1", port := 50000 } true :=
  (socket_task_condition { hostname := some "127.0.0.1", port := 50000 } true).2
    "127.0.0.1" rfl (by decide)

/-- Claim C3: in every run of `setupTopology` the phases occur in
nondecreasing order — all construction/wiring events (phase 0) precede
all configuration events (phase 1), which precede the task start
(phase 2), which precedes the optional network-task events (phase 3). -/
theorem setup_phase_ordering (st : TopologyState) (g : Bool) :
    monotoneBy phaseOf (setupTopology st g) = true := by
  obtain ⟨h, p⟩ := st
  cases h <;> cases g <;> cases p <;> rfl

/-- Claim C4: for each of the two handles, setup performs exactly one
allocation for it, by `mallocator`, and teardown performs exactly one
release for it, through that same allocator — no handle is released
twice, none is left unreleased, and no release goes to a different
allocator. -/
theorem resource_symmetry (st : TopologyState) (g : Bool) (h : Handle) :
    allocEventsFor h (setupTopology st g) = [Allocator.mallocator] ∧
    releaseEventsFor h (teardownTopology st) = [Allocator.mallocator] := by
  obtain ⟨ho, p⟩ := st
  cases h <;> cases ho <;> cases g <;> cases p <;> exact ⟨rfl, rfl⟩

/-- Claim C5, counterexample: `teardownTopology` takes no record of
whether `setupTopology` ever ran; called on any state (here one carrying
no endpoint, as when no setup configured anything), it reports no error
and still proceeds to stop tasks and release both resources. -/
theorem teardown_without_setup_proceeds :
    ((teardownTopology { hostname := none, port := 0 }).filter isErrorLog).length = 0 ∧
    Ev.stopTasks ∈ teardownTopology { hostname := none, port := 0 } ∧
    Ev.release Handle.cmdSeqBuffer Allocator.mallocator ∈
      teardownTopology { hostname := none, port := 0 } := by
  refine ⟨rfl, ?_, ?_⟩ <;> simp [teardownTopology]

/-- Claim C5, amended: `teardownTopology` has no usage guard at all — it
is a void function of the state alone, so whether or not a successful
setup preceded it, it reports no error and unconditionally stops tasks,
stops and joins the socket task, and releases both resources. -/
theorem teardown_unguarded (st : TopologyState) :
    ((teardownTopology st).filter isErrorLog).length = 0 ∧
    Ev.stopTasks ∈ teardownTopology st ∧
    Ev.release Handle.cmdSeqBuffer Allocator.mallocator ∈ teardownTopology st ∧
    Ev.release Handle.uplinkPool Allocator.mallocator ∈ teardownTopology st := by
  refine ⟨rfl, ?_, ?_, ?_⟩ <;> simp [teardownTopology]

/-- Claim C6: divisor validation (modelled from the spec, §4.4) rejects
the empty sequence and `[1, 0, 4]` with `ConfigurationError` and accepts
`[1, 2, 4]`, which is exactly the source's `rateGroupDivisors` array. -/
theorem rateClockConfig_validation :
    RateClockConfig.validate [] = ConfigResult.configurationError ∧
    RateClockConfig.validate [1, 0, 4] = ConfigResult.configurationError ∧
    RateClockConfig.validate [1, 2, 4] = ConfigResult.ok ∧
    RateClockConfig.validate rateGroupDivisors = ConfigResult.ok := by
  refine ⟨rfl, ?_, ?_, ?_⟩ <;> decide

/-- Claim C7: when the GPIO open fails, setup emits exactly one
error-level log line (and no other error action appears in the trace),
the failed open still precedes the task start — i.e. setup does not
abort there — the active-component tasks are still started exactly once,
and the optional network task is started exactly as in the successful
run. -/
theorem gpio_failure_degraded (st : TopologyState) :
    ((setupTopology st false).filter isErrorLog).length = 1 ∧
    occursBefore (Ev.gpioOpen 13 false) Ev.startTasks (setupTopology st false) = true ∧
    (setupTopology st false).count Ev.startTasks = 1 ∧
    (setupTopology st false).count Ev.startSocketTask =
      (setupTopology st true).count Ev.startSocketTask := by
  obtain ⟨h, p⟩ := st
  cases h <;> cases p <;> exact ⟨rfl, rfl, rfl, rfl⟩

/-- Claim C10: `teardownTopology` stops and joins the socket task for
every state, while `setupTopology` on a state with no endpoint never
starts one — the network-task teardown path is unconditional and thus
not symmetric with setup's conditional start. -/
theorem teardown_socket_asymmetry (st : TopologyState) (g : Bool) :
    Ev.stopSocketTask ∈ teardownTopology st ∧
    Ev.joinSocketTask ∈ teardownTopology st ∧
    (setupTopology { hostname := none, port := 0 } g).count Ev.startSocketTask = 0 := by
  refine ⟨?_, ?_, ?_⟩
  · simp [teardownTopology]
  · simp [teardownTopology]
  · cases g <;> rfl

/-- Helper for C8: from any start index `i`, if the read `s` positions
later returns false, the loop terminates within `s + 1` reads, performs
at most `s` `callIsr` invocations, and its last event is the false flag
observation. -/
theorem cycleTrace_stops (ms : Nat) (reads : Nat → Bool) :
    ∀ s i, reads (i + s) = false →
      ∃ t, cycleTrace ms reads (s + 1) i = some t ∧
        countTicks t ≤ s ∧ lastEv t = some (CycleEv.read false) := by
  intro s
  induction s with
  | zero =>
    intro i hi
    rw [Nat.add_zero] at hi
    refine ⟨[CycleEv.read false], ?_, Nat.le_refl 0, rfl⟩
    simp [cycleTrace, hi]
  | succ s ih =>
    intro i hi
    cases hr : reads i with
    | false =>
      refine ⟨[CycleEv.read false], ?_, Nat.zero_le _, rfl⟩
      simp [cycleTrace, hr]
    | true =>
      have hi' : reads ((i + 1) + s) = false := by
        have : (i + 1) + s = i + (s + 1) := by omega
        rw [this]
        exact hi
      obtain ⟨t, ht, htick, hlast⟩ := ih (i + 1) hi'
      refine ⟨CycleEv.read true :: CycleEv.callIsr :: CycleEv.sleep ms :: t, ?_, ?_, ?_⟩
      · have hstep : cycleTrace ms reads (s + 1 + 1) i =
            if reads i then
              (cycleTrace ms reads (s + 1) (i + 1)).map
                (fun t => CycleEv.read true :: CycleEv.callIsr :: CycleEv.sleep ms :: t)
            else some [CycleEv.read false] := rfl
        rw [hstep, hr, ht]
        simp
      · show countTicks t + 1 ≤ s + 1
        exact Nat.succ_le_succ htick
      · cases t with
        | nil => cases hlast
        | cons c t' => exact hlast

/-- Claim C8: run against any flag-read sequence in which a stop has
taken effect — the flag is monotone (once read false it stays false, as
`stopSimulatedCycle` only writes false) and read number `s` returns
false — `startSimulatedCycle` returns (given fuel for `s + 1` reads),
its last event is the observation of the false flag (it returns only
after observing the flag false), and it invokes the tick callback
`callIsr` at most `s` times: at most one invocation after the last true
read, since each iteration is read, one `callIsr` if the read was true,
one sleep. -/
theorem simulated_cycle_cancellation (ms : Nat) (reads : Nat → Bool) (s : Nat)
    (_hmono : flagMonotone reads) (hs : reads s = false) :
    ∃ t, startSimulatedCycle ms reads (s + 1) = some t ∧
      countTicks t ≤ s ∧ lastEv t = some (CycleEv.read false) := by
  have h0 : reads (0 + s) = false := by
    rw [Nat.zero_add]
    exact hs
  exact cycleTrace_stops ms reads s 0 h0

/-- Claim C8, witness: period 100, flag true for reads 0 and 1 and false
from read 2 on (a stop between the second and third check). -/
theorem simulated_cycle_cancellation_witness :
    ∃ t, startSimulatedCycle 100 (fun i => decide (i < 2)) 3 = some t ∧
      countTicks t ≤ 2 ∧ lastEv t = some (CycleEv.read false) :=
  simulated_cycle_cancellation 100 (fun i => decide (i < 2)) 2
    (by
      intro j k hjk hj
      rw [decide_eq_false_iff_not] at hj ⊢
      omega)
    (by decide)

/-- Claim C9: the flag starts true (`volatile bool cycleFlag = true`),
`stopSimulatedCycle` sets it false, stopping twice is identical to
stopping once, and no operation resets a false flag to true — `stop` is
the only writer and it only writes false. -/
theorem stop_idempotent_flag_monotone :
    initialCycleState.cycleFlag = true ∧
    (∀ s, (stopSimulatedCycle s).cycleFlag = false) ∧
    (∀ s, stopSimulatedCycle (stopSimulatedCycle s) = stopSimulatedCycle s) ∧
    (∀ s, s.cycleFlag = false → (stopSimulatedCycle s).cycleFlag = false) :=
  ⟨rfl, fun _ => rfl, fun _ => rfl, fun _ _ => rfl⟩

/-- Claim C9, witness: the monotonicity conjunct applied to the
already-stopped state. -/
theorem stop_idempotent_flag_monotone_witness :
    (stopSimulatedCycle { cycleFlag := false }).cycleFlag = false :=
  stop_idempotent_flag_monotone.2.2.2 { cycleFlag := false } rfl
